import Mathlib

/-!
Verification of the sandboxed code evaluator (`evaluator.py`).

The development shallowly embeds the evaluator: the Python value fragment used
by test cases, the print-capture sink, the regex-based security filter
(`DANGEROUS_PATTERNS` / `check_code_security`), the message formatters, the
bounded runner (`run_with_timeout`) and the test harness
(`evaluate_user_code`).  The effect of `compile`/`exec` on the submitted
source text is abstracted as an oracle `pyExec : String → ExecOutcome`; every
other step of `evaluate_user_code` is translated directly from the source.
-/

set_option maxRecDepth 16384

namespace Evaluator

/-- Execution timeout in seconds (evaluator.py line 15). -/
def TIMEOUT_SECONDS : Nat := 5

/-- Join a list of strings with a separator, modelling Python sep.join(xs). -/
def joinStr (sep : String) : List String → String
  | [] => ""
  | [x] => x
  | x :: y :: rest => x ++ sep ++ joinStr sep (y :: rest)

/-- Model of the Python values that flow through test cases: None, int,
bool, str, list and tuple, plus pobjAlwaysEq, an instance of a user-defined
class W whose __eq__ method returns True for any operand (definable under
the restricted builtins, which include __build_class__), so that values
with user-defined equality are representable. -/
inductive PyVal where
  | pnone
  | pint (n : Int)
  | pbool (b : Bool)
  | pstr (s : String)
  | plist (elems : List PyVal)
  | ptuple (elems : List PyVal)
  | pobjAlwaysEq

/-- Model of the Python identity test v is None. -/
def PyVal.isNone : PyVal → Bool
  | PyVal.pnone => true
  | _ => false

/-- Python type name of a value, modelling type(v).__name__. -/
def PyVal.typeName : PyVal → String
  | PyVal.pnone => "NoneType"
  | PyVal.pint _ => "int"
  | PyVal.pbool _ => "bool"
  | PyVal.pstr _ => "str"
  | PyVal.plist _ => "list"
  | PyVal.ptuple _ => "tuple"
  | PyVal.pobjAlwaysEq => "W"

mutual
/-- Python repr of a value (strings are quoted, containers recurse). -/
def pyRepr : PyVal → String
  | PyVal.pnone => "None"
  | PyVal.pint n => toString n
  | PyVal.pbool b => if b then "True" else "False"
  | PyVal.pstr s => "\x27" ++ s ++ "\x27"
  | PyVal.plist es => "[" ++ joinStr ", " (pyReprList es) ++ "]"
  | PyVal.ptuple [e] => "(" ++ pyRepr e ++ ",)"
  | PyVal.ptuple es => "(" ++ joinStr ", " (pyReprList es) ++ ")"
  | PyVal.pobjAlwaysEq => "<__user_code__.W object>"

/-- Reprs of the elements of a container. -/
def pyReprList : List PyVal → List String
  | [] => []
  | e :: rest => pyRepr e :: pyReprList rest
end

/-- Python str of a value: like repr except that a top-level string is
rendered without quotes. -/
def pyStr : PyVal → String
  | PyVal.pstr s => s
  | v => pyRepr v

mutual
/-- Python equality == on the embedded values; True == 1 and False == 0 as
in Python, containers compare elementwise, and the always-equal object
compares equal to everything (its __eq__ returns True, and the reflected
comparison is consulted when the built-in left operand does not recognise
it). -/
def pyEq : PyVal → PyVal → Bool
  | PyVal.pobjAlwaysEq, _ => true
  | PyVal.pnone, w =>
    match w with
    | PyVal.pnone => true
    | PyVal.pobjAlwaysEq => true
    | _ => false
  | PyVal.pint m, w =>
    match w with
    | PyVal.pint n => m == n
    | PyVal.pbool a => m == (if a then (1 : Int) else 0)
    | PyVal.pobjAlwaysEq => true
    | _ => false
  | PyVal.pbool a, w =>
    match w with
    | PyVal.pbool b => a == b
    | PyVal.pint n => (if a then (1 : Int) else 0) == n
    | PyVal.pobjAlwaysEq => true
    | _ => false
  | PyVal.pstr s, w =>
    match w with
    | PyVal.pstr t => s == t
    | PyVal.pobjAlwaysEq => true
    | _ => false
  | PyVal.plist xs, w =>
    match w with
    | PyVal.plist ys => pyEqList xs ys
    | PyVal.pobjAlwaysEq => true
    | _ => false
  | PyVal.ptuple xs, w =>
    match w with
    | PyVal.ptuple ys => pyEqList xs ys
    | PyVal.pobjAlwaysEq => true
    | _ => false

/-- Elementwise Python equality of two sequences. -/
def pyEqList : List PyVal → List PyVal → Bool
  | [], [] => true
  | x :: xs, y :: ys => pyEq x y && pyEqList xs ys
  | _, _ => false
end

/- ------------------------------------------------------------------ -/
/- Character helpers used by the regex model.                          -/
/- ------------------------------------------------------------------ -/

/-- Regex word character, the class matched by backslash-w. -/
def isWordChar (c : Char) : Bool := c.isAlphanum || c == '_'

/-- ASCII whitespace, the class matched by backslash-s. -/
def isSpaceChar (c : Char) : Bool :=
  c == ' ' || c == '\t' || c == '\n' || c == '\r' || c == '\x0b' || c == '\x0c'

/-- Strip a literal character sequence off the front of the input. -/
def stripLit : List Char → List Char → Option (List Char)
  | [], rest => some rest
  | _ :: _, [] => Option.none
  | c :: cs, d :: ds => if c == d then stripLit cs ds else Option.none

/-- Drop leading whitespace characters. -/
def dropSpaces : List Char → List Char
  | [] => []
  | c :: rest => if isSpaceChar c then dropSpaces rest else c :: rest

/-- Require at least one whitespace character, then drop the run of them. -/
def stripSpaces1 : List Char → Option (List Char)
  | [] => Option.none
  | c :: rest => if isSpaceChar c then some (dropSpaces rest) else Option.none

/-- A word boundary holds before the current position when there is no
preceding character or the preceding character is not a word character. -/
def boundaryBefore : Option Char → Bool
  | Option.none => true
  | some c => !isWordChar c

/-- A word boundary holds after a word character when the remaining input is
empty or starts with a non-word character. -/
def boundaryAfter : List Char → Bool
  | [] => true
  | c :: _ => !isWordChar c

/-- The three shapes of regex used in DANGEROUS_PATTERNS:
importMod m embeds `\bimport\s+m\b`; callName f embeds `\bf\s*\(`;
attrText a embeds the literal pattern a (e.g. `\.__class__`). -/
inductive Pat where
  | importMod (m : String)
  | callName (f : String)
  | attrText (a : String)
deriving DecidableEq

/-- Try to match a pattern at the current position, given the character just
before the position (for word boundaries) and the remaining input. -/
def matchAtPos : Pat → Option Char → List Char → Bool
  | Pat.importMod m, b, s =>
    boundaryBefore b &&
      (match stripLit "import".toList s with
       | some rest =>
         (match stripSpaces1 rest with
          | some rest2 =>
            (match stripLit m.toList rest2 with
             | some rest3 => boundaryAfter rest3
             | Option.none => false)
          | Option.none => false)
       | Option.none => false)
  | Pat.callName f, b, s =>
    boundaryBefore b &&
      (match stripLit f.toList s with
       | some rest =>
         (match dropSpaces rest with
          | '(' :: _ => true
          | _ => false)
       | Option.none => false)
  | Pat.attrText a, _, s => (stripLit a.toList s).isSome

/-- Scan every position of the input for a pattern match, tracking the
previous character for word boundaries. -/
def reSearchGo (p : Pat) : Option Char → List Char → Bool
  | b, [] => matchAtPos p b []
  | b, c :: rest => matchAtPos p b (c :: rest) || reSearchGo p (some c) rest

/-- Model of re.search(pattern, code) for the pattern shapes above. -/
def reSearch (p : Pat) (code : String) : Bool :=
  reSearchGo p Option.none code.toList

/-- Dangerous patterns to detect (evaluator.py lines 84 to 105), in order,
each with its human-readable reason string. -/
def DANGEROUS_PATTERNS : List (Pat × String) :=
  [ (Pat.importMod "os", "Importing \x27os\x27 module is not allowed"),
    (Pat.importMod "sys", "Importing \x27sys\x27 module is not allowed"),
    (Pat.importMod "subprocess", "Importing \x27subprocess\x27 module is not allowed"),
    (Pat.callName "open", "File operations with \x27open()\x27 are not allowed"),
    (Pat.callName "eval", "Using \x27eval()\x27 is not allowed"),
    (Pat.callName "exec", "Using \x27exec()\x27 is not allowed"),
    (Pat.callName "__import__", "Using \x27__import__()\x27 is not allowed"),
    (Pat.callName "compile", "Using \x27compile()\x27 is not allowed"),
    (Pat.callName "globals", "Using \x27globals()\x27 is not allowed"),
    (Pat.callName "locals", "Using \x27locals()\x27 is not allowed"),
    (Pat.callName "getattr", "Using \x27getattr()\x27 is not allowed"),
    (Pat.callName "setattr", "Using \x27setattr()\x27 is not allowed"),
    (Pat.callName "delattr", "Using \x27delattr()\x27 is not allowed"),
    (Pat.attrText ".__class__", "Accessing \x27__class__\x27 is not allowed"),
    (Pat.attrText ".__bases__", "Accessing \x27__bases__\x27 is not allowed"),
    (Pat.attrText ".__subclasses__", "Accessing \x27__subclasses__\x27 is not allowed"),
    (Pat.attrText ".__code__", "Accessing \x27__code__\x27 is not allowed"),
    (Pat.attrText ".__globals__", "Accessing \x27__globals__\x27 is not allowed"),
    (Pat.attrText ".__builtins__", "Accessing \x27__builtins__\x27 is not allowed") ]

/-- Prepend the security banner to a violation reason (evaluator.py line 165). -/
def security_error_msg (reason : String) : String :=
  "🔒 Security Error: " ++ reason

/-- Check code for dangerous patterns; returns (is_safe, error_message)
(evaluator.py lines 158 to 166).  The first matching rule wins. -/
def check_code_security (code : String) : Bool × String :=
  match DANGEROUS_PATTERNS.find? (fun pr => reSearch pr.1 code) with
  | some pr => (false, security_error_msg pr.2)
  | Option.none => (true, "")

/- ------------------------------------------------------------------ -/
/- String helpers modelling Python str operations.                     -/
/- ------------------------------------------------------------------ -/

/-- Model of Python s.lower(). -/
def strLower (s : String) : String := String.mk (s.toList.map Char.toLower)

/-- Does the haystack start with the needle (character lists)? -/
def startsWithList : List Char → List Char → Bool
  | [], _ => true
  | _ :: _, [] => false
  | c :: cs, d :: ds => c == d && startsWithList cs ds

/-- Does the haystack contain the needle as a contiguous run? -/
def containsList (needle : List Char) : List Char → Bool
  | [] => startsWithList needle []
  | c :: rest => startsWithList needle (c :: rest) || containsList needle rest

/-- Model of the Python substring test: needle in hay. -/
def strContains (hay needle : String) : Bool :=
  containsList needle.toList hay.toList

/- ------------------------------------------------------------------ -/
/- COMMON_MISTAKES and the message formatters.                         -/
/- ------------------------------------------------------------------ -/

/-- Common mistakes table (evaluator.py lines 108 to 145):
(key, message, suggestion) triples. -/
def COMMON_MISTAKES : List (String × String × String) :=
  [ ("print_instead_of_return",
     "❌ You\x27re using print() instead of return",
     "💡 Replace print(...) with return ... to return the value"),
    ("no_return",
     "❌ Your function doesn\x27t return anything",
     "💡 Add a \x27return\x27 statement at the end of your function"),
    ("wrong_function_name",
     "❌ Function name doesn\x27t match the required name",
     "💡 Make sure your function is named exactly as shown in the template"),
    ("indentation_error",
     "❌ Indentation Error",
     "💡 Check that your code uses consistent spaces (4 spaces per indent level)"),
    ("syntax_error",
     "❌ Syntax Error",
     "💡 Check for missing colons, parentheses, or quotes"),
    ("name_error",
     "❌ Undefined Variable",
     "💡 Make sure all variables are defined before use"),
    ("type_error",
     "❌ Type Error",
     "💡 Check that you\x27re using the correct data types for operations"),
    ("index_error",
     "❌ Index Out of Range",
     "💡 Check your loop bounds and list indices"),
    ("timeout",
     "❌ Time Limit Exceeded",
     "💡 Your code took too long. Check for infinite loops or optimize your solution") ]

/-- Look up a COMMON_MISTAKES entry by key. -/
def mistakeOf (key : String) : Option (String × String) :=
  (COMMON_MISTAKES.find? (fun e => e.1 == key)).map (fun e => e.2)

/-- The message field of a COMMON_MISTAKES entry. -/
def mistakeMessage (key : String) : String :=
  match mistakeOf key with
  | some m => m.1
  | Option.none => ""

/-- The suggestion field of a COMMON_MISTAKES entry. -/
def mistakeSuggestion (key : String) : String :=
  match mistakeOf key with
  | some m => m.2
  | Option.none => ""

/-- Format a runtime error with helpful message (evaluator.py lines 192 to
199); the first argument models type(error).__name__, the second str(error). -/
def format_runtime_error (error_type_name : String) (error_str : String)
    (error_type : String) : String :=
  let mi :=
    match mistakeOf error_type with
    | some m => m
    | Option.none => ("❌ " ++ error_type_name, "💡 Check your code logic and try again")
  mi.1 ++ ": " ++ error_str ++ "\n\n" ++ mi.2

/-- The type-mismatch line of format_test_failure (evaluator.py line 211). -/
def type_mismatch_note (expected actual : PyVal) : String :=
  "\n⚠️ **Type mismatch:** Expected `" ++ expected.typeName ++
    "`, got `" ++ actual.typeName ++ "`"

/-- Format a test case failure with diff (evaluator.py lines 202 to 214). -/
def format_test_failure (inputs : List PyVal) (expected actual : PyVal) : String :=
  let result := ["❌ Test Case Failed\n",
    "📥 **Input:** `" ++ pyStr (PyVal.ptuple inputs) ++ "`",
    "✅ **Expected:** `" ++ pyStr expected ++ "`",
    "❌ **Got:** `" ++ pyStr actual ++ "`"]
  let result :=
    if expected.typeName ≠ actual.typeName then
      result ++ [type_mismatch_note expected actual,
        "💡 Make sure you\x27re returning the correct data type"]
    else result
  joinStr "\n" result

/-- Format a syntax error with line highlighting (evaluator.py lines 169 to
189); the first argument models error.lineno, the second error.msg. -/
def format_syntax_error (lineno : Option Nat) (error_msg : String)
    (code : String) : String :=
  let lines := code.splitOn "\n"
  let line_no :=
    match lineno with
    | some n => if n == 0 then 1 else n
    | Option.none => 1
  let start := max 0 (line_no - 2)
  let stop := min lines.length (line_no + 1)
  let result := [mistakeMessage "syntax_error"]
    ++ ["\n📍 Error at line " ++ toString line_no ++ ": " ++ error_msg]
    ++ ["\n```"]
    ++ ((List.range' start (stop - start)).map (fun i =>
          (if i == line_no - 1 then "→ " else "  ") ++ toString (i + 1) ++ ": " ++
            lines.getD i ""))
    ++ ["```"]
    ++ ["\n" ++ mistakeSuggestion "syntax_error"]
  joinStr "\n" result

/-- Diagnostic for a print-only solution (evaluator.py line 333). -/
def print_instead_of_return_msg : String :=
  mistakeMessage "print_instead_of_return" ++ "\n\n" ++
    mistakeSuggestion "print_instead_of_return"

/-- Diagnostic for a function with no return (evaluator.py line 337). -/
def no_return_msg : String :=
  mistakeMessage "no_return" ++ "\n\n" ++ mistakeSuggestion "no_return"

/-- Diagnostic for an indentation error caught while defining the submission
(evaluator.py line 288); the argument models str(e). -/
def indentation_error_msg (detail : String) : String :=
  mistakeMessage "indentation_error" ++ ": " ++ detail ++ "\n\n" ++
    mistakeSuggestion "indentation_error"

/-- Diagnostic for a definition-time exception (evaluator.py line 291). -/
def define_error_msg (type_name detail : String) : String :=
  "❌ Error while defining your code:\n\n`" ++ type_name ++ ": " ++ detail ++
    "`\n\n💡 Check your function definition for errors"

/-- Diagnostic naming the expected function and the callables that were found
(evaluator.py lines 296 to 304). -/
def wrong_function_name_msg (function_name : String)
    (user_functions : List String) : String :=
  mistakeMessage "wrong_function_name" ++ "\n\n" ++
  "❌ Expected function: `" ++ function_name ++ "`\n" ++
  (if user_functions.isEmpty then ""
   else "📝 Found: `" ++ joinStr ", " user_functions ++ "`\n") ++
  "\n" ++ mistakeSuggestion "wrong_function_name"

/-- Success summary (evaluator.py line 345). -/
def all_passed_msg (passed_count : Nat) : String :=
  "✅ All " ++ toString passed_count ++ " test cases passed!"

/- ------------------------------------------------------------------ -/
/- The restricted environment and the abstract execution semantics.    -/
/- ------------------------------------------------------------------ -/

/-- Outcome of one invocation of a callable on the worker thread: it may
never finish within the deadline, raise an exception (carrying str(e)), or
return a value. -/
inductive CallOutcome where
  | hangs
  | raises (msg : String)
  | returns (v : PyVal)

/-- Result of invoking a callable: its outcome together with the lines its
execution appended to the print-capture sink. -/
structure CallResult where
  outcome : CallOutcome
  printed : List String

/-- Semantics of a user-defined callable. -/
def PyFunc : Type := List PyVal → CallResult

/-- A value bound in the restricted environment safe_env: the initial
__builtins__ dict, the injected print capture, a user-defined callable, or a
non-callable user value. -/
inductive EnvVal where
  | builtinsDict
  | printCapture
  | userCallable (f : PyFunc)
  | plainVal (v : PyVal)

/-- Model of Python callable(v) for environment values. -/
def EnvVal.isCallable : EnvVal → Bool
  | EnvVal.builtinsDict => false
  | EnvVal.printCapture => true
  | EnvVal.userCallable _ => true
  | EnvVal.plainVal _ => false

/-- Semantics of the injected capture_print (evaluator.py lines 273 to 274):
it returns None and appends the space-joined str of its arguments. -/
def printCaptureCall (args : List PyVal) : CallResult :=
  { outcome := CallOutcome.returns PyVal.pnone
    printed := [joinStr " " (args.map pyStr)] }

/-- Invoke an environment value; calling a non-callable raises the usual
TypeError whose str names the type. -/
def EnvVal.call : EnvVal → List PyVal → CallResult
  | EnvVal.printCapture, args => printCaptureCall args
  | EnvVal.userCallable f, args => f args
  | EnvVal.builtinsDict, _ =>
    { outcome := CallOutcome.raises "\x27dict\x27 object is not callable"
      printed := [] }
  | EnvVal.plainVal v, _ =>
    { outcome := CallOutcome.raises ("\x27" ++ v.typeName ++ "\x27 object is not callable")
      printed := [] }

/-- Abstract outcome of compiling and exec-ing the submission source in the
restricted environment (evaluator.py lines 279 to 291): a syntax error with
its line number, an indentation error, another definition-time exception, or
success with the bindings the submission created (in definition order) and
the lines it printed at definition time. -/
inductive ExecOutcome where
  | syntaxError (lineno : Option Nat) (msg : String)
  | indentationError (detail : String)
  | defError (type_name : String) (detail : String)
  | defined (defs : List (String × EnvVal)) (printed_during_def : List String)

/-- Python dict assignment d[k] = v on an insertion-ordered association
list: overwrite in place when the key exists, append otherwise. -/
def dictInsert : List (String × EnvVal) → String → EnvVal → List (String × EnvVal)
  | [], k, v => [(k, v)]
  | (k0, v0) :: rest, k, v =>
    if k0 == k then (k0, v) :: rest else (k0, v0) :: dictInsert rest k v

/-- The environment before exec runs (evaluator.py lines 270 and 276):
the __builtins__ dict, then the injected print capture. -/
def baseEnv : List (String × EnvVal) :=
  [("__builtins__", EnvVal.builtinsDict), ("print", EnvVal.printCapture)]

/-- The environment after exec: the base environment updated with the
bindings the submission created, in order. -/
def buildEnv (defs : List (String × EnvVal)) : List (String × EnvVal) :=
  defs.foldl (fun d p => dictInsert d p.1 p.2) baseEnv

/-- Dictionary lookup safe_env[name]. -/
def envLookup (env : List (String × EnvVal)) (name : String) : Option EnvVal :=
  match env.find? (fun p => p.1 == name) with
  | some p => some p.2
  | Option.none => Option.none

/-- Model of the Python test k.startswith(underscore): the first character
of the name is an underscore. -/
def startsWithUnderscore (name : String) : Bool :=
  match name.toList with
  | [] => false
  | c :: _ => c == '_'

/-- The candidate list shown on a name mismatch (evaluator.py line 296):
keys of callable values whose name does not start with an underscore, in
dictionary iteration order. -/
def userFunctionsOf (env : List (String × EnvVal)) : List String :=
  (env.filter (fun p => p.2.isCallable && !(startsWithUnderscore p.1))).map (fun p => p.1)

/- ------------------------------------------------------------------ -/
/- The bounded runner and the test harness.                            -/
/- ------------------------------------------------------------------ -/

/-- Run a function with timeout (evaluator.py lines 217 to 247); returns
((result, success, error_message), lines appended to the sink).  On timeout
the worker is abandoned and a formatted timeout diagnostic is the error
message; on an exception the error message is str(e). -/
def run_with_timeout (func : EnvVal) (args : List PyVal) (timeout : Nat) :
    (PyVal × Bool × String) × List String :=
  let cr := EnvVal.call func args
  match cr.outcome with
  | CallOutcome.hangs =>
    ((PyVal.pnone, false,
      format_runtime_error "TimeoutException"
        ("Execution exceeded " ++ toString timeout ++ " seconds") "timeout"),
     cr.printed)
  | CallOutcome.raises msg => ((PyVal.pnone, false, msg), cr.printed)
  | CallOutcome.returns v => ((v, true, ""), cr.printed)

/-- Error-kind classification inside the test loop (evaluator.py lines 321
to 327): substring tests against the error message. -/
def classifyErrorType (error_msg : String) : String :=
  if strContains error_msg "NameError" then "name_error"
  else if strContains error_msg "TypeError" then "type_error"
  else if strContains error_msg "IndexError" then "index_error"
  else "runtime"

/-- One iteration of the test-case loop (evaluator.py lines 310 to 341).
The sink is cleared at the top of the iteration, so the result depends only
on this invocation.  Returns (some verdict) on a terminal failure, none when
the case passes, together with the sink contents after the iteration. -/
def runCase (func : EnvVal) (tc : List PyVal × PyVal) :
    Option (Bool × String) × List String :=
  let r := run_with_timeout func tc.1 TIMEOUT_SECONDS
  let result := r.1.1
  let success := r.1.2.1
  let error_msg := r.1.2.2
  let sink := r.2
  if success = false then
    if strContains (strLower error_msg) "exceeded" then
      (some (false, error_msg), sink)
    else
      (some (false,
        format_runtime_error "Exception" error_msg (classifyErrorType error_msg)),
       sink)
  else if result.isNone && !sink.isEmpty then
    (some (false, print_instead_of_return_msg), sink)
  else if result.isNone && sink.isEmpty then
    (some (false, no_return_msg), sink)
  else if pyEq result tc.2 = false then
    (some (false, format_test_failure tc.1 tc.2 result), sink)
  else (Option.none, sink)

/-- The test-case loop, threading the sink and counting how many cases were
actually invoked; stops at the first failing case. -/
def runCasesFrom (func : EnvVal) (sink : List String) :
    List (List PyVal × PyVal) → Option (Bool × String) × List String × Nat
  | [] => (Option.none, sink, 0)
  | tc :: rest =>
    let rc := runCase func tc
    match rc.1 with
    | some verdict => (some verdict, rc.2, 1)
    | Option.none =>
      let r := runCasesFrom func rc.2 rest
      (r.1, r.2.1, r.2.2 + 1)

/-- The harness (evaluator.py lines 250 to 345), instrumented with an
explicit print sink: sink0 is the sink contents at entry (the source starts
from an empty local list; the parameter makes the no-leak property
statable).  Returns the verdict together with the final sink contents. -/
def evaluateUserCodeS (pyExec : String → ExecOutcome) (code : String)
    (function_name : String) (test_cases : List (List PyVal × PyVal))
    (sink0 : List String) : (Bool × String) × List String :=
  let sec := check_code_security code
  if sec.1 = false then ((false, sec.2), sink0)
  else
    match pyExec code with
    | ExecOutcome.syntaxError ln msg => ((false, format_syntax_error ln msg code), sink0)
    | ExecOutcome.indentationError d => ((false, indentation_error_msg d), sink0)
    | ExecOutcome.defError ty d => ((false, define_error_msg ty d), sink0)
    | ExecOutcome.defined defs dp =>
      let sink1 := sink0 ++ dp
      let env := buildEnv defs
      match envLookup env function_name with
      | Option.none =>
        ((false, wrong_function_name_msg function_name (userFunctionsOf env)), sink1)
      | some func =>
        let r := runCasesFrom func sink1 test_cases
        match r.1 with
        | some verdict => (verdict, r.2.1)
        | Option.none => ((true, all_passed_msg test_cases.length), r.2.1)

/-- Evaluate user code against test cases (evaluator.py lines 250 to 345):
the verdict of the instrumented harness started from the empty sink, exactly
as the source initialises printed_output. -/
def evaluate_user_code (pyExec : String → ExecOutcome) (code : String)
    (function_name : String) (test_cases : List (List PyVal × PyVal)) :
    Bool × String :=
  (evaluateUserCodeS pyExec code function_name test_cases []).1

/- ------------------------------------------------------------------ -/
/- Derived message forms used in theorem statements.                   -/
/- ------------------------------------------------------------------ -/

/-- The full timeout diagnostic produced on a hung case (evaluator.py lines
239 to 242 and 317 to 318). -/
def timeout_diagnostic_msg : String :=
  format_runtime_error "TimeoutException"
    ("Execution exceeded " ++ toString TIMEOUT_SECONDS ++ " seconds") "timeout"

/-- The first four lines of a test-failure message (input, expected, got),
joined; format_test_failure equals this when the runtime types agree. -/
def format_test_failure_base (inputs : List PyVal) (expected actual : PyVal) : String :=
  joinStr "\n" ["❌ Test Case Failed\n",
    "📥 **Input:** `" ++ pyStr (PyVal.ptuple inputs) ++ "`",
    "✅ **Expected:** `" ++ pyStr expected ++ "`",
    "❌ **Got:** `" ++ pyStr actual ++ "`"]

/-- The suffix format_test_failure appends exactly when the runtime types of
expected and actual differ. -/
def format_test_failure_tail (expected actual : PyVal) : String :=
  "\n" ++ type_mismatch_note expected actual ++
    "\n" ++ "💡 Make sure you\x27re returning the correct data type"

/- ------------------------------------------------------------------ -/
/- Concrete fixtures used by witnesses and counterexamples.            -/
/- ------------------------------------------------------------------ -/

/-- Semantics of the submission def add(a, b): return a + b. -/
def addSem : PyFunc := fun args =>
  match args with
  | [PyVal.pint a, PyVal.pint b] =>
    { outcome := CallOutcome.returns (PyVal.pint (a + b)), printed := [] }
  | _ => { outcome := CallOutcome.raises "unsupported arguments", printed := [] }

/-- Bindings produced by defining the add submission. -/
def addDefs : List (String × EnvVal) := [("add", EnvVal.userCallable addSem)]

/-- Exec oracle for the add submission. -/
def addExec : String → ExecOutcome := fun _ => ExecOutcome.defined addDefs []

/-- Source text of the add submission. -/
def addCode : String := "def add(a, b):\n    return a + b"

/-- Semantics of def add(a, b): print(a + b) — prints and returns None. -/
def printAddSem : PyFunc := fun args =>
  match args with
  | [PyVal.pint a, PyVal.pint b] =>
    { outcome := CallOutcome.returns PyVal.pnone, printed := [toString (a + b)] }
  | _ => { outcome := CallOutcome.raises "unsupported arguments", printed := [] }

/-- Bindings produced by defining the printing add submission. -/
def printAddDefs : List (String × EnvVal) := [("add", EnvVal.userCallable printAddSem)]

/-- Exec oracle for the printing add submission. -/
def printAddExec : String → ExecOutcome := fun _ => ExecOutcome.defined printAddDefs []

/-- Source text of the printing add submission. -/
def printAddCode : String := "def add(a, b):\n    print(a + b)"

/-- Semantics of a callable that never terminates. -/
def hangSem : PyFunc := fun _ => { outcome := CallOutcome.hangs, printed := [] }

/-- Bindings produced by defining the hanging submission. -/
def hangDefs : List (String × EnvVal) := [("slow", EnvVal.userCallable hangSem)]

/-- Exec oracle for the hanging submission. -/
def hangExec : String → ExecOutcome := fun _ => ExecOutcome.defined hangDefs []

/-- Source text of the hanging submission. -/
def hangCode : String := "def slow(n):\n    while n == n:\n        n = n + 1"

/-- Semantics of def f(x): return [1, 2, 3][x] called out of range: raises
an IndexError whose str is the usual message. -/
def indexErrSem : PyFunc := fun _ =>
  { outcome := CallOutcome.raises "list index out of range", printed := [] }

/-- Bindings produced by defining the indexing submission. -/
def indexErrDefs : List (String × EnvVal) := [("f", EnvVal.userCallable indexErrSem)]

/-- Exec oracle for the indexing submission. -/
def indexErrExec : String → ExecOutcome := fun _ => ExecOutcome.defined indexErrDefs []

/-- Source text of the indexing submission. -/
def indexErrCode : String := "def f(x):\n    return [1, 2, 3][x]"

/-- The message the harness produces for the raised IndexError above: the
generic Exception template around str(e). -/
def genericIndexErrVerdictMsg : String :=
  "❌ Exception: list index out of range\n\n💡 Check your code logic and try again"

/-- Semantics of def f(): return None — returns None without printing. -/
def returnNoneSem : PyFunc := fun _ =>
  { outcome := CallOutcome.returns PyVal.pnone, printed := [] }

/-- Bindings produced by defining the None-returning submission. -/
def returnNoneDefs : List (String × EnvVal) := [("f", EnvVal.userCallable returnNoneSem)]

/-- Exec oracle for the None-returning submission. -/
def returnNoneExec : String → ExecOutcome := fun _ => ExecOutcome.defined returnNoneDefs []

/-- Source text of the None-returning submission. -/
def returnNoneCode : String := "def f():\n    return None"

/-- Semantics of def f(x): return str(x) — returns the string form. -/
def strOfSem : PyFunc := fun args =>
  match args with
  | [PyVal.pint a] => { outcome := CallOutcome.returns (PyVal.pstr (toString a)), printed := [] }
  | _ => { outcome := CallOutcome.raises "unsupported arguments", printed := [] }

/-- Bindings produced by defining the stringifying submission. -/
def strOfDefs : List (String × EnvVal) := [("f", EnvVal.userCallable strOfSem)]

/-- Exec oracle for the stringifying submission. -/
def strOfExec : String → ExecOutcome := fun _ => ExecOutcome.defined strOfDefs []

/-- Source text of the stringifying submission. -/
def strOfCode : String := "def f(x):\n    return str(x)"

/-- Semantics of class W and of def f(): return W(): calling either yields
an instance whose __eq__ returns True for any operand. -/
def alwaysEqSem : PyFunc := fun _ =>
  { outcome := CallOutcome.returns PyVal.pobjAlwaysEq, printed := [] }

/-- Bindings produced by defining the always-equal submission: the class W
and the function f, both callable. -/
def alwaysEqDefs : List (String × EnvVal) :=
  [("W", EnvVal.userCallable alwaysEqSem), ("f", EnvVal.userCallable alwaysEqSem)]

/-- Exec oracle for the always-equal submission. -/
def alwaysEqExec : String → ExecOutcome := fun _ => ExecOutcome.defined alwaysEqDefs []

/-- Source text of the always-equal submission. -/
def alwaysEqCode : String :=
  "class W:\n    def __eq__(self, other):\n        return True\n\ndef f():\n    return W()"

/-- Bindings produced by a submission that defines myadd instead of add. -/
def myaddDefs : List (String × EnvVal) := [("myadd", EnvVal.userCallable addSem)]

/-- Exec oracle for the myadd submission. -/
def myaddExec : String → ExecOutcome := fun _ => ExecOutcome.defined myaddDefs []

/-- Source text of the myadd submission. -/
def myaddCode : String := "def myadd(a, b):\n    return a + b"

/- ------------------------------------------------------------------ -/
/- Basic lemmas about the value model.                                 -/
/- ------------------------------------------------------------------ -/

mutual
/-- Python == is reflexive on the embedded values. -/
theorem pyEq_refl : ∀ (v : PyVal), pyEq v v = true
  | PyVal.pnone => by simp [pyEq]
  | PyVal.pint n => by simp [pyEq]
  | PyVal.pbool b => by simp [pyEq]
  | PyVal.pstr s => by simp [pyEq]
  | PyVal.plist xs => by simp only [pyEq]; exact pyEqList_refl xs
  | PyVal.ptuple xs => by simp only [pyEq]; exact pyEqList_refl xs
  | PyVal.pobjAlwaysEq => by simp [pyEq]

/-- Elementwise Python equality is reflexive. -/
theorem pyEqList_refl : ∀ (l : List PyVal), pyEqList l l = true
  | [] => by simp [pyEqList]
  | x :: xs => by
    simp only [pyEqList, Bool.and_eq_true]
    exact ⟨pyEq_refl x, pyEqList_refl xs⟩
end

/-- A value Python-equal to None is None itself or the always-equal user
object. -/
theorem pyEq_pnone_right (v : PyVal) (h : pyEq v PyVal.pnone = true) :
    v = PyVal.pnone ∨ v = PyVal.pobjAlwaysEq := by
  cases v <;>
    first
      | exact Or.inl rfl
      | exact Or.inr rfl
      | simp [pyEq] at h

/-- A Python int is never the None object. -/
theorem pint_ne_pnone (n : Int) : PyVal.pint n ≠ PyVal.pnone :=
  fun h => PyVal.noConfusion h

/-- A Python str is never the None object. -/
theorem pstr_ne_pnone (s : String) : PyVal.pstr s ≠ PyVal.pnone :=
  fun h => PyVal.noConfusion h

/- ------------------------------------------------------------------ -/
/- Plumbing lemmas about the harness.                                  -/
/- ------------------------------------------------------------------ -/

/-- If a value is not None then isNone is false on it. -/
theorem isNone_eq_false (v : PyVal) (h : v ≠ PyVal.pnone) : v.isNone = false := by
  cases v <;> first | exact absurd rfl h | rfl

/-- A hanging invocation fails its case with the timeout diagnostic. -/
theorem runCase_hangs (func : EnvVal) (inputs : List PyVal) (expected : PyVal)
    (h : (EnvVal.call func inputs).outcome = CallOutcome.hangs) :
    runCase func (inputs, expected) =
      (some (false,
        format_runtime_error "TimeoutException"
          ("Execution exceeded " ++ toString TIMEOUT_SECONDS ++ " seconds") "timeout"),
       (EnvVal.call func inputs).printed) := by
  have hcontains :
      strContains (strLower (format_runtime_error "TimeoutException"
        ("Execution exceeded " ++ toString TIMEOUT_SECONDS ++ " seconds") "timeout"))
        "exceeded" = true := by decide
  simp only [runCase, run_with_timeout, h, hcontains]
  simp

/-- A raising invocation fails its case; the branch taken depends on whether
the message mentions the word exceeded. -/
theorem runCase_raises (func : EnvVal) (inputs : List PyVal) (expected : PyVal)
    (msg : String)
    (h : (EnvVal.call func inputs).outcome = CallOutcome.raises msg) :
    runCase func (inputs, expected) =
      (some (false,
        if strContains (strLower msg) "exceeded" then msg
        else format_runtime_error "Exception" msg (classifyErrorType msg)),
       (EnvVal.call func inputs).printed) := by
  simp only [runCase, run_with_timeout, h]
  by_cases hex : strContains (strLower msg) "exceeded" <;> simp [hex]

/-- An invocation returning None fails its case with the print-vs-return or
missing-return diagnostic, decided by the sink contents of this case. -/
theorem runCase_returns_none (func : EnvVal) (inputs : List PyVal) (expected : PyVal)
    (h : (EnvVal.call func inputs).outcome = CallOutcome.returns PyVal.pnone) :
    runCase func (inputs, expected) =
      (some (false,
        if (EnvVal.call func inputs).printed.isEmpty then no_return_msg
        else print_instead_of_return_msg),
       (EnvVal.call func inputs).printed) := by
  simp only [runCase, run_with_timeout, h]
  by_cases hempty : (EnvVal.call func inputs).printed.isEmpty <;>
    simp [hempty, PyVal.isNone]

/-- An invocation returning a non-None value Python-unequal to the expected
value fails its case with the formatted test failure. -/
theorem runCase_returns_mismatch (func : EnvVal) (inputs : List PyVal)
    (expected v : PyVal)
    (h : (EnvVal.call func inputs).outcome = CallOutcome.returns v)
    (hv : v ≠ PyVal.pnone) (hneq : pyEq v expected = false) :
    runCase func (inputs, expected) =
      (some (false, format_test_failure inputs expected v),
       (EnvVal.call func inputs).printed) := by
  simp only [runCase, run_with_timeout, h]
  simp [isNone_eq_false v hv, hneq]

/-- An invocation returning the non-None value Python-equal to the expected
value passes its case. -/
theorem runCase_returns_match (func : EnvVal) (inputs : List PyVal)
    (expected v : PyVal)
    (h : (EnvVal.call func inputs).outcome = CallOutcome.returns v)
    (hv : v ≠ PyVal.pnone) (heq : pyEq v expected = true) :
    runCase func (inputs, expected) =
      (Option.none, (EnvVal.call func inputs).printed) := by
  simp only [runCase, run_with_timeout, h]
  simp [isNone_eq_false v hv, heq]

/-- The verdict and the invocation count of the loop do not depend on the
sink contents at loop entry (the sink is cleared before every case). -/
theorem runCasesFrom_sink_indep (func : EnvVal) (s t : List String)
    (cs : List (List PyVal × PyVal)) :
    (runCasesFrom func s cs).1 = (runCasesFrom func t cs).1 ∧
    (runCasesFrom func s cs).2.2 = (runCasesFrom func t cs).2.2 := by
  cases cs with
  | nil => exact ⟨rfl, rfl⟩
  | cons tc rest => simp [runCasesFrom]

/-- Prepending cases that all pass does not change the verdict, and adds
their number to the invocation count. -/
theorem runCasesFrom_append_pass (func : EnvVal)
    (pre rest : List (List PyVal × PyVal)) (s : List String)
    (hpre : ∀ tc ∈ pre, (runCase func tc).1 = Option.none) :
    (runCasesFrom func s (pre ++ rest)).1 = (runCasesFrom func s rest).1 ∧
    (runCasesFrom func s (pre ++ rest)).2.2 =
      pre.length + (runCasesFrom func s rest).2.2 := by
  induction pre generalizing s with
  | nil => simp
  | cons tc pre ih =>
    have htc : (runCase func tc).1 = Option.none := hpre tc (List.mem_cons_self tc pre)
    have hrest : ∀ c ∈ pre, (runCase func c).1 = Option.none :=
      fun c hc => hpre c (List.mem_cons_of_mem tc hc)
    have ih2 := ih (runCase func tc).2 hrest
    have hs1 := runCasesFrom_sink_indep func (runCase func tc).2 s rest
    simp only [List.cons_append, runCasesFrom, htc, List.append_eq]
    refine ⟨?_, ?_⟩
    · rw [ih2.1, hs1.1]
    · rw [ih2.2, hs1.2, List.length_cons]; omega

/-- Under a passing security check, a successful definition and a resolved
name, the harness verdict is decided by the loop. -/
theorem evaluateUserCodeS_run (pyExec : String → ExecOutcome)
    (code function_name : String) (test_cases : List (List PyVal × PyVal))
    (s dp : List String) (defs : List (String × EnvVal)) (func : EnvVal)
    (hsec : (check_code_security code).1 = true)
    (hdef : pyExec code = ExecOutcome.defined defs dp)
    (hlook : envLookup (buildEnv defs) function_name = some func) :
    (evaluateUserCodeS pyExec code function_name test_cases s).1 =
      (match (runCasesFrom func (s ++ dp) test_cases).1 with
       | some verdict => verdict
       | Option.none => (true, all_passed_msg test_cases.length)) := by
  simp only [evaluateUserCodeS, hsec, hdef, hlook]
  simp only [Bool.true_eq_false, if_false]
  cases hr : (runCasesFrom func (s ++ dp) test_cases).1 <;> simp [hr]

/-- A failing first case terminates the loop at once: a single invocation,
and its verdict is the loop verdict. -/
theorem runCasesFrom_cons_fail (func : EnvVal) (s : List String)
    (tc : List PyVal × PyVal) (rest : List (List PyVal × PyVal)) (v : Bool × String)
    (hfail : (runCase func tc).1 = some v) :
    runCasesFrom func s (tc :: rest) = (some v, (runCase func tc).2, 1) := by
  simp only [runCasesFrom, hfail]

/-- When every earlier case passes and the next case fails, the harness
verdict is that failing case's verdict. -/
theorem evaluate_first_fail (pyExec : String → ExecOutcome)
    (code function_name : String) (defs : List (String × EnvVal))
    (dp : List String) (func : EnvVal)
    (pre post : List (List PyVal × PyVal)) (tc : List PyVal × PyVal)
    (v : Bool × String)
    (hsec : (check_code_security code).1 = true)
    (hdef : pyExec code = ExecOutcome.defined defs dp)
    (hlook : envLookup (buildEnv defs) function_name = some func)
    (hpre : ∀ c ∈ pre, (runCase func c).1 = Option.none)
    (hfail : (runCase func tc).1 = some v) :
    evaluate_user_code pyExec code function_name (pre ++ tc :: post) = v := by
  rw [evaluate_user_code,
    evaluateUserCodeS_run pyExec code function_name (pre ++ tc :: post) [] dp defs func
      hsec hdef hlook]
  have happ := runCasesFrom_append_pass func pre (tc :: post) ([] ++ dp) hpre
  rw [happ.1, runCasesFrom_cons_fail func ([] ++ dp) tc post v hfail]

/-- Every terminal verdict produced inside the loop has passed = false. -/
theorem runCase_verdict_false (func : EnvVal) (tc : List PyVal × PyVal)
    (v : Bool × String) (h : (runCase func tc).1 = some v) : v.1 = false := by
  obtain ⟨inputs, expected⟩ := tc
  cases hout : (EnvVal.call func inputs).outcome with
  | hangs =>
    rw [runCase_hangs func inputs expected hout] at h
    rw [← Option.some.inj h]
  | raises msg =>
    rw [runCase_raises func inputs expected msg hout] at h
    rw [← Option.some.inj h]
  | returns w =>
    by_cases hw : w = PyVal.pnone
    · subst hw
      rw [runCase_returns_none func inputs expected hout] at h
      rw [← Option.some.inj h]
    · cases hpq : pyEq w expected with
      | true =>
        rw [runCase_returns_match func inputs expected w hout hw hpq] at h
        simp at h
      | false =>
        rw [runCase_returns_mismatch func inputs expected w hout hw hpq] at h
        rw [← Option.some.inj h]

/-- Every terminal verdict of the loop has passed = false. -/
theorem runCasesFrom_fail_verdict_false (func : EnvVal) (s : List String)
    (cs : List (List PyVal × PyVal)) (v : Bool × String)
    (h : (runCasesFrom func s cs).1 = some v) : v.1 = false := by
  induction cs generalizing s with
  | nil => simp [runCasesFrom] at h
  | cons tc rest ih =>
    simp only [runCasesFrom] at h
    cases hrc : (runCase func tc).1 with
    | some w =>
      rw [hrc] at h
      simp at h
      rw [← h]
      exact runCase_verdict_false func tc w hrc
    | none =>
      rw [hrc] at h
      simp at h
      exact ih (runCase func tc).2 h

/-- A case whose expected output is None cannot pass unless the callable
returned the always-equal user object: a None result is reclassified before
the comparison and any other fragment value is Python-unequal to None. -/
theorem runCase_expected_none_fails (func : EnvVal) (inputs : List PyVal)
    (hobj : ∀ v, (EnvVal.call func inputs).outcome = CallOutcome.returns v →
      v ≠ PyVal.pobjAlwaysEq)
    (h : (runCase func (inputs, PyVal.pnone)).1 = Option.none) : False := by
  cases hout : (EnvVal.call func inputs).outcome with
  | hangs =>
    rw [runCase_hangs func inputs PyVal.pnone hout] at h; simp at h
  | raises msg =>
    rw [runCase_raises func inputs PyVal.pnone msg hout] at h; simp at h
  | returns w =>
    by_cases hw : w = PyVal.pnone
    · subst hw
      rw [runCase_returns_none func inputs PyVal.pnone hout] at h; simp at h
    · cases hpq : pyEq w PyVal.pnone with
      | true =>
        rcases pyEq_pnone_right w hpq with rfl | rfl
        · exact hw rfl
        · exact hobj PyVal.pobjAlwaysEq hout rfl
      | false =>
        rw [runCase_returns_mismatch func inputs PyVal.pnone w hout hw hpq] at h
        simp at h

/-- If some supplied case expects None and the callable never returns the
always-equal object on a None-expecting case, the loop surfaces a failure. -/
theorem runCasesFrom_some_of_expected_none (func : EnvVal) (s : List String)
    (cs : List (List PyVal × PyVal))
    (hobj : ∀ tc ∈ cs, tc.2 = PyVal.pnone →
      ∀ v, (EnvVal.call func tc.1).outcome = CallOutcome.returns v →
        v ≠ PyVal.pobjAlwaysEq)
    (h : ∃ tc ∈ cs, tc.2 = PyVal.pnone) :
    (runCasesFrom func s cs).1.isSome = true := by
  induction cs generalizing s with
  | nil => simp at h
  | cons tc rest ih =>
    simp only [runCasesFrom]
    cases hrc : (runCase func tc).1 with
    | some w => simp
    | none =>
      rcases h with ⟨c, hc, hcn⟩
      rcases List.mem_cons.mp hc with rfl | hmem
      · obtain ⟨ci, ce⟩ := c
        simp only at hcn
        subst hcn
        exact absurd hrc (fun hh =>
          runCase_expected_none_fails func ci
            (hobj (ci, PyVal.pnone) (List.mem_cons_self _ _) rfl) hh)
      · have ih2 := ih (runCase func tc).2
          (fun c2 hc2 => hobj c2 (List.mem_cons_of_mem tc hc2)) ⟨c, hmem, hcn⟩
        simpa using ih2

/-- If every case passes, the loop produces no verdict. -/
theorem runCasesFrom_all_pass (func : EnvVal) (s : List String)
    (cs : List (List PyVal × PyVal))
    (hall : ∀ tc ∈ cs, (runCase func tc).1 = Option.none) :
    (runCasesFrom func s cs).1 = Option.none := by
  induction cs generalizing s with
  | nil => rfl
  | cons tc rest ih =>
    have htc := hall tc (List.mem_cons_self tc rest)
    simp only [runCasesFrom, htc]
    exact ih (runCase func tc).2 (fun c hc => hall c (List.mem_cons_of_mem tc hc))

/-- The harness verdict does not depend on the sink contents at entry. -/
theorem evaluateUserCodeS_fst_sink_indep (pyExec : String → ExecOutcome)
    (code function_name : String) (test_cases : List (List PyVal × PyVal))
    (s1 s2 : List String) :
    (evaluateUserCodeS pyExec code function_name test_cases s1).1 =
      (evaluateUserCodeS pyExec code function_name test_cases s2).1 := by
  cases hsec : (check_code_security code).1 with
  | false => simp [evaluateUserCodeS, hsec]
  | true =>
    cases hdef : pyExec code with
    | syntaxError ln msg => simp [evaluateUserCodeS, hsec, hdef]
    | indentationError d => simp [evaluateUserCodeS, hsec, hdef]
    | defError ty d => simp [evaluateUserCodeS, hsec, hdef]
    | defined defs dp =>
      cases hl : envLookup (buildEnv defs) function_name with
      | none => simp [evaluateUserCodeS, hsec, hdef, hl]
      | some func =>
        rw [evaluateUserCodeS_run pyExec code function_name test_cases s1 dp defs func
             hsec hdef hl,
           evaluateUserCodeS_run pyExec code function_name test_cases s2 dp defs func
             hsec hdef hl,
           (runCasesFrom_sink_indep func (s1 ++ dp) (s2 ++ dp) test_cases).1]

/-- Overwriting assignment with a key absent from the dict appends. -/
theorem dictInsert_fresh (d : List (String × EnvVal)) (k : String) (v : EnvVal)
    (h : ∀ p ∈ d, p.1 ≠ k) : dictInsert d k v = d ++ [(k, v)] := by
  induction d with
  | nil => rfl
  | cons q rest ih =>
    obtain ⟨k0, v0⟩ := q
    have hk : k0 ≠ k := h (k0, v0) (List.mem_cons_self _ _)
    simp only [dictInsert, List.cons_append]
    rw [if_neg (by simpa using hk)]
    rw [ih (fun p hp => h p (List.mem_cons_of_mem _ hp))]

/-- Folding fresh, pairwise-distinct bindings into a dict appends them all
in order. -/
theorem foldl_dictInsert_fresh (defs : List (String × EnvVal)) :
    ∀ (acc : List (String × EnvVal)),
    (∀ p ∈ defs, ∀ q ∈ acc, p.1 ≠ q.1) →
    (defs.map Prod.fst).Nodup →
    defs.foldl (fun d p => dictInsert d p.1 p.2) acc = acc ++ defs := by
  induction defs with
  | nil => intro acc _ _; simp
  | cons p rest ih =>
    intro acc hfresh hnd
    have hnd2 : p.1 ∉ rest.map Prod.fst ∧ (rest.map Prod.fst).Nodup := by
      rw [List.map_cons, List.nodup_cons] at hnd
      exact hnd
    have h1 : dictInsert acc p.1 p.2 = acc ++ [p] :=
      dictInsert_fresh acc p.1 p.2
        (fun q hq => (hfresh p (List.mem_cons_self p rest) q hq).symm)
    have hfresh2 : ∀ r ∈ rest, ∀ q ∈ acc ++ [p], r.1 ≠ q.1 := by
      intro r hr q hq
      rcases List.mem_append.mp hq with hq1 | hq2
      · exact hfresh r (List.mem_cons_of_mem p hr) q hq1
      · have hqp : q = p := by simpa using hq2
        subst hqp
        intro heq
        exact hnd2.1 (heq ▸ List.mem_map_of_mem Prod.fst hr)
    simp only [List.foldl_cons]
    rw [h1, ih (acc ++ [p]) hfresh2 hnd2.2, List.append_assoc,
      List.singleton_append]

/-- With bindings that do not collide with the base environment, the
environment after exec is the base followed by the bindings in order. -/
theorem buildEnv_fresh (defs : List (String × EnvVal))
    (hb : ∀ p ∈ defs, p.1 ≠ "__builtins__")
    (hp : ∀ p ∈ defs, p.1 ≠ "print")
    (hnd : (defs.map Prod.fst).Nodup) :
    buildEnv defs = baseEnv ++ defs := by
  rw [buildEnv, foldl_dictInsert_fresh defs baseEnv ?_ hnd]
  intro p hpmem q hq
  have hq2 : q = ("__builtins__", EnvVal.builtinsDict) ∨ q = ("print", EnvVal.printCapture) := by
    simpa [baseEnv] using hq
  rcases hq2 with rfl | rfl
  · exact hb p hpmem
  · exact hp p hpmem

/-- The found-callables list for a fresh environment is the injected print
capture followed by the non-underscore callables the submission defined. -/
theorem userFunctionsOf_fresh (defs : List (String × EnvVal))
    (hb : ∀ p ∈ defs, p.1 ≠ "__builtins__")
    (hp : ∀ p ∈ defs, p.1 ≠ "print")
    (hnd : (defs.map Prod.fst).Nodup) :
    userFunctionsOf (buildEnv defs) = "print" :: userFunctionsOf defs := by
  rw [buildEnv_fresh defs hb hp hnd]
  simp only [userFunctionsOf, List.filter_append, List.map_append]
  rfl

/-- A name bound nowhere in an environment fails to resolve. -/
theorem envLookup_eq_none (env : List (String × EnvVal)) (name : String)
    (h : ∀ p ∈ env, p.1 ≠ name) : envLookup env name = Option.none := by
  induction env with
  | nil => rfl
  | cons q rest ih =>
    have hq : (q.1 == name) = false := by
      simpa using h q (List.mem_cons_self q rest)
    have ih2 := ih (fun p hp => h p (List.mem_cons_of_mem q hp))
    simp only [envLookup, List.find?, hq] at ih2 ⊢
    exact ih2

/-- In a fresh environment the injected name print resolves to the injected
print capture, never to a submission binding. -/
theorem envLookup_print_fresh (defs : List (String × EnvVal))
    (hb : ∀ p ∈ defs, p.1 ≠ "__builtins__")
    (hp : ∀ p ∈ defs, p.1 ≠ "print")
    (hnd : (defs.map Prod.fst).Nodup) :
    envLookup (buildEnv defs) "print" = some EnvVal.printCapture := by
  rw [buildEnv_fresh defs hb hp hnd]
  have h1 : (("__builtins__" : String) == "print") = false := rfl
  have h2 : (("print" : String) == "print") = true := rfl
  simp only [envLookup, baseEnv, List.cons_append, List.find?, h1, h2]

/- ------------------------------------------------------------------ -/
/- The claims.                                                         -/
/- ------------------------------------------------------------------ -/

/-- Claim C1: for every source text that matches one of the ordered
dangerous patterns, evaluate_user_code returns passed = false with a
security message carrying the first matching rule reason string (the rule
selected by find?, which returns the earliest matching rule, and whose
reason names the specific forbidden construct), and no part of the
submission is compiled or executed: the verdict is independent of the
exec oracle. -/
theorem C1_security_rejects_before_execution
    (pyExec pyExec2 : String → ExecOutcome) (code function_name : String)
    (test_cases : List (List PyVal × PyVal)) (pat : Pat) (reason : String)
    (hfind : DANGEROUS_PATTERNS.find? (fun pr => reSearch pr.1 code) =
      some (pat, reason)) :
    evaluate_user_code pyExec code function_name test_cases =
      (false, security_error_msg reason) ∧
    (pat, reason) ∈ DANGEROUS_PATTERNS ∧
    reSearch pat code = true ∧
    evaluate_user_code pyExec code function_name test_cases =
      evaluate_user_code pyExec2 code function_name test_cases := by
  have hsec : check_code_security code = (false, security_error_msg reason) := by
    simp only [check_code_security, hfind]
  have heval : ∀ (pe : String → ExecOutcome),
      evaluate_user_code pe code function_name test_cases =
        (false, security_error_msg reason) := by
    intro pe
    simp [evaluate_user_code, evaluateUserCodeS, hsec]
  refine ⟨heval pyExec, List.mem_of_find?_eq_some hfind, ?_, ?_⟩
  · simpa using List.find?_some hfind
  · rw [heval pyExec, heval pyExec2]

/-- Witness for C1: the submission import os is rejected with the first
rule's reason, whatever the exec oracle would have done. -/
theorem C1_security_rejects_before_execution_witness :
    evaluate_user_code addExec "import os" "add" [] =
      (false, security_error_msg "Importing \x27os\x27 module is not allowed") :=
  (C1_security_rejects_before_execution addExec myaddExec "import os" "add" []
    (Pat.importMod "os") "Importing \x27os\x27 module is not allowed" (by decide)).1

/-- Claim C2 (amended): every test case whose execution does not finish
within the fixed 5-second deadline makes evaluate_user_code stop waiting on
the worker and return passed = false with the time-limit-exceeded
diagnostic; the diagnostic names the exceeded 5-second deadline but does
not name the test case. -/
theorem C2_timeout_terminal (pyExec : String → ExecOutcome)
    (code function_name : String) (defs : List (String × EnvVal))
    (dp : List String) (func : EnvVal)
    (pre post : List (List PyVal × PyVal)) (inputs : List PyVal) (expected : PyVal)
    (hsec : (check_code_security code).1 = true)
    (hdef : pyExec code = ExecOutcome.defined defs dp)
    (hlook : envLookup (buildEnv defs) function_name = some func)
    (hpre : ∀ c ∈ pre, (runCase func c).1 = Option.none)
    (hhang : (EnvVal.call func inputs).outcome = CallOutcome.hangs) :
    evaluate_user_code pyExec code function_name (pre ++ (inputs, expected) :: post) =
      (false, timeout_diagnostic_msg) := by
  apply evaluate_first_fail pyExec code function_name defs dp func pre post
    (inputs, expected) (false, timeout_diagnostic_msg) hsec hdef hlook hpre
  rw [runCase_hangs func inputs expected hhang]
  rfl

/-- Witness for C2 (amended): a hanging callable on the case ((1,), 1). -/
theorem C2_timeout_terminal_witness :
    evaluate_user_code hangExec hangCode "slow"
        ([] ++ ([PyVal.pint 1], PyVal.pint 1) :: []) =
      (false, timeout_diagnostic_msg) :=
  C2_timeout_terminal hangExec hangCode "slow" hangDefs []
    (EnvVal.userCallable hangSem) [] [] [PyVal.pint 1] (PyVal.pint 1)
    (by decide) rfl rfl (fun c hc => nomatch hc) rfl

/-- Counterexample for C2 as stated: the timeout diagnostic does not name
the test case that exceeded the deadline.  It does not contain the case
input (1,), and two hung cases with different inputs produce the identical
message. -/
theorem C2_message_does_not_name_case_cex :
    evaluate_user_code hangExec hangCode "slow" [([PyVal.pint 1], PyVal.pint 1)] =
      (false, timeout_diagnostic_msg) ∧
    evaluate_user_code hangExec hangCode "slow" [([PyVal.pint 42], PyVal.pint 2)] =
      (false, timeout_diagnostic_msg) ∧
    strContains timeout_diagnostic_msg (pyStr (PyVal.ptuple [PyVal.pint 1])) = false :=
  ⟨by decide, by decide, by decide⟩

/-- Claim C3: for every test-case invocation whose result is None, the
verdict is passed = false with the print-instead-of-return diagnostic when
the sink captured output during the case, and with the no-return diagnostic
when the sink captured nothing; neither situation is reported as a pass. -/
theorem C3_none_result_never_passes (pyExec : String → ExecOutcome)
    (code function_name : String) (defs : List (String × EnvVal))
    (dp : List String) (func : EnvVal)
    (pre post : List (List PyVal × PyVal)) (inputs : List PyVal) (expected : PyVal)
    (hsec : (check_code_security code).1 = true)
    (hdef : pyExec code = ExecOutcome.defined defs dp)
    (hlook : envLookup (buildEnv defs) function_name = some func)
    (hpre : ∀ c ∈ pre, (runCase func c).1 = Option.none)
    (hret : (EnvVal.call func inputs).outcome = CallOutcome.returns PyVal.pnone) :
    evaluate_user_code pyExec code function_name (pre ++ (inputs, expected) :: post) =
      (false,
        if (EnvVal.call func inputs).printed.isEmpty then no_return_msg
        else print_instead_of_return_msg) := by
  apply evaluate_first_fail pyExec code function_name defs dp func pre post
    (inputs, expected)
    (false,
      if (EnvVal.call func inputs).printed.isEmpty then no_return_msg
      else print_instead_of_return_msg) hsec hdef hlook hpre
  rw [runCase_returns_none func inputs expected hret]

/-- Witness for C3: a callable that prints the sum and returns None is
flagged with the print-instead-of-return diagnostic. -/
theorem C3_none_result_never_passes_witness :
    evaluate_user_code printAddExec printAddCode "add"
        ([] ++ ([PyVal.pint 2, PyVal.pint 3], PyVal.pint 5) :: []) =
      (false,
        if (EnvVal.call (EnvVal.userCallable printAddSem)
              [PyVal.pint 2, PyVal.pint 3]).printed.isEmpty then no_return_msg
        else print_instead_of_return_msg) :=
  C3_none_result_never_passes printAddExec printAddCode "add" printAddDefs []
    (EnvVal.userCallable printAddSem) [] [] [PyVal.pint 2, PyVal.pint 3]
    (PyVal.pint 5) (by decide) rfl rfl (fun c hc => nomatch hc) rfl

/-- Claim C4 (amended): every callable that raises an unhandled exception
during a test case (whose message does not mention the word exceeded) makes
evaluate_user_code return passed = false with the message built by
format_runtime_error from the error type derived by substring-matching
NameError, TypeError and IndexError inside the exception message text;
since str(e) of those exceptions usually lacks the class name, known kinds
fall through to the generic Exception template, and the message does not
name the test case input. -/
theorem C4_runtime_error_terminal (pyExec : String → ExecOutcome)
    (code function_name : String) (defs : List (String × EnvVal))
    (dp : List String) (func : EnvVal)
    (pre post : List (List PyVal × PyVal)) (inputs : List PyVal) (expected : PyVal)
    (msg : String)
    (hsec : (check_code_security code).1 = true)
    (hdef : pyExec code = ExecOutcome.defined defs dp)
    (hlook : envLookup (buildEnv defs) function_name = some func)
    (hpre : ∀ c ∈ pre, (runCase func c).1 = Option.none)
    (hraise : (EnvVal.call func inputs).outcome = CallOutcome.raises msg)
    (hnx : strContains (strLower msg) "exceeded" = false) :
    evaluate_user_code pyExec code function_name (pre ++ (inputs, expected) :: post) =
      (false, format_runtime_error "Exception" msg (classifyErrorType msg)) := by
  apply evaluate_first_fail pyExec code function_name defs dp func pre post
    (inputs, expected)
    (false, format_runtime_error "Exception" msg (classifyErrorType msg))
    hsec hdef hlook hpre
  rw [runCase_raises func inputs expected msg hraise]
  simp [hnx]

/-- Witness for C4 (amended): an IndexError message produces the generic
Exception template verdict. -/
theorem C4_runtime_error_terminal_witness :
    evaluate_user_code indexErrExec indexErrCode "f"
        ([] ++ ([PyVal.pint 5], PyVal.pint 0) :: []) =
      (false, format_runtime_error "Exception" "list index out of range"
        (classifyErrorType "list index out of range")) :=
  C4_runtime_error_terminal indexErrExec indexErrCode "f" indexErrDefs []
    (EnvVal.userCallable indexErrSem) [] [] [PyVal.pint 5] (PyVal.pint 0)
    "list index out of range" (by decide) rfl rfl (fun c hc => nomatch hc) rfl
    (by decide)

/-- Counterexample for C4 as stated: indexing past the end of a sequence
raises an IndexError whose str lacks the class name, so the verdict uses
the generic Exception template — the message reflects neither the
IndexError classification (no IndexError, no Index Out of Range template)
nor the offending case input (5,). -/
theorem C4_message_lacks_kind_and_input_cex :
    evaluate_user_code indexErrExec indexErrCode "f" [([PyVal.pint 5], PyVal.pint 0)] =
      (false, genericIndexErrVerdictMsg) ∧
    strContains genericIndexErrVerdictMsg (pyStr (PyVal.ptuple [PyVal.pint 5])) = false ∧
    strContains genericIndexErrVerdictMsg "IndexError" = false ∧
    strContains genericIndexErrVerdictMsg (mistakeMessage "index_error") = false :=
  ⟨by decide, by decide, by decide, by decide⟩

/-- Claim C5 (amended): for every submission that passes the security
filter, defines successfully, resolves the target name, and whose callable
returns for every supplied case exactly the expected value, that value
being non-None, evaluate_user_code returns passed = true with the success
message counting the cases.  (The non-None proviso is forced by the
counterexample: a case expecting None is reclassified as a missing return
before the comparison.) -/
theorem C5_all_exact_matches_pass (pyExec : String → ExecOutcome)
    (code function_name : String) (test_cases : List (List PyVal × PyVal))
    (defs : List (String × EnvVal)) (dp : List String) (func : EnvVal)
    (hsec : (check_code_security code).1 = true)
    (hdef : pyExec code = ExecOutcome.defined defs dp)
    (hlook : envLookup (buildEnv defs) function_name = some func)
    (hall : ∀ tc ∈ test_cases,
      (EnvVal.call func tc.1).outcome = CallOutcome.returns tc.2 ∧
        tc.2 ≠ PyVal.pnone) :
    evaluate_user_code pyExec code function_name test_cases =
      (true, all_passed_msg test_cases.length) := by
  rw [evaluate_user_code,
    evaluateUserCodeS_run pyExec code function_name test_cases [] dp defs func
      hsec hdef hlook]
  have hnone : (runCasesFrom func ([] ++ dp) test_cases).1 = Option.none := by
    apply runCasesFrom_all_pass
    intro tc htc
    obtain ⟨i, e⟩ := tc
    obtain ⟨hret, hne⟩ := hall (i, e) htc
    rw [runCase_returns_match func i e e hret hne (pyEq_refl e)]
  rw [hnone]

/-- Witness for C5 (amended): concrete scenario A, two passing cases. -/
theorem C5_all_exact_matches_pass_witness :
    evaluate_user_code addExec addCode "add"
        [([PyVal.pint 2, PyVal.pint 3], PyVal.pint 5),
         ([PyVal.pint 10, PyVal.pint 20], PyVal.pint 30)] =
      (true, all_passed_msg 2) :=
  C5_all_exact_matches_pass addExec addCode "add"
    [([PyVal.pint 2, PyVal.pint 3], PyVal.pint 5),
     ([PyVal.pint 10, PyVal.pint 20], PyVal.pint 30)]
    addDefs [] (EnvVal.userCallable addSem) (by decide) rfl rfl
    (by
      intro tc htc
      rcases List.mem_cons.mp htc with rfl | htc2
      · exact ⟨rfl, pint_ne_pnone 5⟩
      · cases List.mem_singleton.mp htc2
        exact ⟨rfl, pint_ne_pnone 30⟩)

/-- Counterexample for C5 as stated: a submission that passes security,
defines, resolves, and returns exactly the expected value (None) for its
single case is still rejected — the None return is reclassified as a
missing return, so the claim fails when an expected value is None. -/
theorem C5_exact_none_match_fails_cex :
    (check_code_security returnNoneCode).1 = true ∧
    returnNoneExec returnNoneCode = ExecOutcome.defined returnNoneDefs [] ∧
    envLookup (buildEnv returnNoneDefs) "f" = some (EnvVal.userCallable returnNoneSem) ∧
    (EnvVal.call (EnvVal.userCallable returnNoneSem) []).outcome =
      CallOutcome.returns PyVal.pnone ∧
    evaluate_user_code returnNoneExec returnNoneCode "f" [([], PyVal.pnone)] =
      (false, no_return_msg) :=
  ⟨by decide, rfl, rfl, rfl, by decide⟩

/-- Helper for C6: when the runtime types agree, the failure message is the
base message without a type-mismatch note. -/
theorem format_test_failure_eq_base (inputs : List PyVal) (expected actual : PyVal)
    (hty : expected.typeName = actual.typeName) :
    format_test_failure inputs expected actual =
      format_test_failure_base inputs expected actual := by
  simp only [format_test_failure]
  rw [if_neg (by simp [hty])]
  rfl

/-- Helper for C6: joining six lines splits as the first four lines
followed by the separated last two. -/
theorem joinStr_append_two (sep a b c d e f : String) :
    joinStr sep [a, b, c, d, e, f] =
      joinStr sep [a, b, c, d] ++ (sep ++ e ++ sep ++ f) := by
  simp only [joinStr]
  simp [String.append_assoc]

/-- Helper for C6: when the runtime types differ, the failure message is the
base message followed by the type-mismatch note. -/
theorem format_test_failure_eq_base_append_tail (inputs : List PyVal)
    (expected actual : PyVal) (hty : expected.typeName ≠ actual.typeName) :
    format_test_failure inputs expected actual =
      format_test_failure_base inputs expected actual ++
        format_test_failure_tail expected actual := by
  simp only [format_test_failure]
  rw [if_pos hty]
  simp only [List.cons_append, List.nil_append]
  rw [joinStr_append_two]
  rfl

/-- Helper for C6: the type-mismatch note is never the empty string. -/
theorem format_test_failure_tail_ne_empty (expected actual : PyVal) :
    format_test_failure_tail expected actual ≠ "" := by
  intro h
  have hlen := congrArg String.length h
  simp only [format_test_failure_tail, type_mismatch_note, String.length_append] at hlen
  have h1 : ("\n" : String).length = 1 := rfl
  have h0 : ("" : String).length = 0 := rfl
  omega

/-- Claim C6: every test-case invocation returning a non-None value that is
Python-unequal to the expected value yields passed = false with a message
showing the case input, the expected value and the actual value; the
message carries the type-mismatch note exactly when the two values have
different runtime types. -/
theorem C6_value_mismatch_reported (pyExec : String → ExecOutcome)
    (code function_name : String) (defs : List (String × EnvVal))
    (dp : List String) (func : EnvVal)
    (pre post : List (List PyVal × PyVal)) (inputs : List PyVal)
    (expected v : PyVal)
    (hsec : (check_code_security code).1 = true)
    (hdef : pyExec code = ExecOutcome.defined defs dp)
    (hlook : envLookup (buildEnv defs) function_name = some func)
    (hpre : ∀ c ∈ pre, (runCase func c).1 = Option.none)
    (hret : (EnvVal.call func inputs).outcome = CallOutcome.returns v)
    (hv : v ≠ PyVal.pnone) (hneq : pyEq v expected = false) :
    evaluate_user_code pyExec code function_name (pre ++ (inputs, expected) :: post) =
      (false, format_test_failure inputs expected v) ∧
    (expected.typeName = v.typeName →
      format_test_failure inputs expected v =
        format_test_failure_base inputs expected v) ∧
    (expected.typeName ≠ v.typeName →
      format_test_failure inputs expected v =
        format_test_failure_base inputs expected v ++
          format_test_failure_tail expected v ∧
      format_test_failure_tail expected v ≠ "") := by
  refine ⟨?_, ?_, ?_⟩
  · apply evaluate_first_fail pyExec code function_name defs dp func pre post
      (inputs, expected) (false, format_test_failure inputs expected v)
      hsec hdef hlook hpre
    rw [runCase_returns_mismatch func inputs expected v hret hv hneq]
  · exact format_test_failure_eq_base inputs expected v
  · intro hty
    exact ⟨format_test_failure_eq_base_append_tail inputs expected v hty,
      format_test_failure_tail_ne_empty expected v⟩

/-- Witness for C6: a callable returning the string 5 against the expected
int 5 fails with the formatted message and, the runtime types differing,
the type-mismatch note. -/
theorem C6_value_mismatch_reported_witness :
    (evaluate_user_code strOfExec strOfCode "f"
        ([] ++ ([PyVal.pint 5], PyVal.pint 5) :: []) =
      (false, format_test_failure [PyVal.pint 5] (PyVal.pint 5) (PyVal.pstr "5")) ∧
    ((PyVal.pint 5).typeName = (PyVal.pstr "5").typeName →
      format_test_failure [PyVal.pint 5] (PyVal.pint 5) (PyVal.pstr "5") =
        format_test_failure_base [PyVal.pint 5] (PyVal.pint 5) (PyVal.pstr "5")) ∧
    ((PyVal.pint 5).typeName ≠ (PyVal.pstr "5").typeName →
      format_test_failure [PyVal.pint 5] (PyVal.pint 5) (PyVal.pstr "5") =
        format_test_failure_base [PyVal.pint 5] (PyVal.pint 5) (PyVal.pstr "5") ++
          format_test_failure_tail (PyVal.pint 5) (PyVal.pstr "5") ∧
      format_test_failure_tail (PyVal.pint 5) (PyVal.pstr "5") ≠ "")) :=
  C6_value_mismatch_reported strOfExec strOfCode "f" strOfDefs []
    (EnvVal.userCallable strOfSem) [] [] [PyVal.pint 5] (PyVal.pint 5)
    (PyVal.pstr "5") (by decide) rfl rfl (fun c hc => nomatch hc) rfl
    (pstr_ne_pnone "5") (by decide)

/-- Claim C7: test cases run sequentially in the order supplied; the single
diagnostic returned on failure is the earliest failing case's verdict, and
no case after the first failing one is ever invoked — with every case
before the failing one passing, the loop performs exactly pre.length + 1
invocations and the harness returns that case's verdict, with no retry. -/
theorem C7_fail_fast_in_order (pyExec : String → ExecOutcome)
    (code function_name : String) (defs : List (String × EnvVal))
    (dp : List String) (func : EnvVal)
    (pre post : List (List PyVal × PyVal)) (tc : List PyVal × PyVal)
    (v : Bool × String) (s : List String)
    (hsec : (check_code_security code).1 = true)
    (hdef : pyExec code = ExecOutcome.defined defs dp)
    (hlook : envLookup (buildEnv defs) function_name = some func)
    (hpre : ∀ c ∈ pre, (runCase func c).1 = Option.none)
    (hfail : (runCase func tc).1 = some v) :
    evaluate_user_code pyExec code function_name (pre ++ tc :: post) = v ∧
    (runCasesFrom func s (pre ++ tc :: post)).2.2 = pre.length + 1 := by
  refine ⟨evaluate_first_fail pyExec code function_name defs dp func pre post tc v
    hsec hdef hlook hpre hfail, ?_⟩
  have happ := runCasesFrom_append_pass func pre (tc :: post) s hpre
  rw [happ.2, runCasesFrom_cons_fail func s tc post v hfail]

/-- Witness for C7: three cases for the add callable, the first passes, the
second fails with a wrong value, the third is never invoked — two
invocations happen and the second case's diagnostic is the verdict. -/
theorem C7_fail_fast_in_order_witness :
    evaluate_user_code addExec addCode "add"
        ([([PyVal.pint 2, PyVal.pint 3], PyVal.pint 5)] ++
          ([PyVal.pint 1, PyVal.pint 1], PyVal.pint 3) ::
            [([PyVal.pint 0, PyVal.pint 0], PyVal.pint 0)]) =
      (false, format_test_failure [PyVal.pint 1, PyVal.pint 1] (PyVal.pint 3)
        (PyVal.pint 2)) ∧
    (runCasesFrom (EnvVal.userCallable addSem) []
        ([([PyVal.pint 2, PyVal.pint 3], PyVal.pint 5)] ++
          ([PyVal.pint 1, PyVal.pint 1], PyVal.pint 3) ::
            [([PyVal.pint 0, PyVal.pint 0], PyVal.pint 0)])).2.2 =
      [([PyVal.pint 2, PyVal.pint 3], PyVal.pint 5)].length + 1 :=
  C7_fail_fast_in_order addExec addCode "add" addDefs []
    (EnvVal.userCallable addSem)
    [([PyVal.pint 2, PyVal.pint 3], PyVal.pint 5)]
    [([PyVal.pint 0, PyVal.pint 0], PyVal.pint 0)]
    ([PyVal.pint 1, PyVal.pint 1], PyVal.pint 3)
    (false, format_test_failure [PyVal.pint 1, PyVal.pint 1] (PyVal.pint 3)
      (PyVal.pint 2)) []
    (by decide) rfl rfl
    (by
      intro c hc
      cases List.mem_singleton.mp hc
      decide)
    (by decide)

/-- Claim C8 (amended): when the submission defines successfully (binding
names pairwise distinct and distinct from the injected names print and
__builtins__) and the target function_name is neither among the
submission's definitions nor one of the injected names, evaluate_user_code
returns passed = false with a message stating the expected name and listing
the injected print capture followed by the submission's non-underscore
callables — not exactly the callables the submission itself defined.  The
injected-name proviso is forced by the code: the lookup runs over the whole
environment, so the target print resolves to the injected capture and
evaluation proceeds — with an empty case list it returns passed = true, all
0 cases passed, not a name-mismatch message. -/
theorem C8_name_mismatch_lists_env_callables (pyExec : String → ExecOutcome)
    (code function_name : String) (test_cases : List (List PyVal × PyVal))
    (defs : List (String × EnvVal)) (dp : List String)
    (hsec : (check_code_security code).1 = true)
    (hdef : pyExec code = ExecOutcome.defined defs dp)
    (hb : ∀ p ∈ defs, p.1 ≠ "__builtins__")
    (hp : ∀ p ∈ defs, p.1 ≠ "print")
    (hnd : (defs.map Prod.fst).Nodup)
    (hmem : function_name ∉ defs.map Prod.fst)
    (hfp : function_name ≠ "print")
    (hfb : function_name ≠ "__builtins__") :
    evaluate_user_code pyExec code function_name test_cases =
      (false, wrong_function_name_msg function_name
        ("print" :: userFunctionsOf defs)) ∧
    envLookup (buildEnv defs) "print" = some EnvVal.printCapture ∧
    evaluate_user_code pyExec code "print" [] = (true, all_passed_msg 0) := by
  have hnf : envLookup (buildEnv defs) function_name = Option.none := by
    rw [buildEnv_fresh defs hb hp hnd]
    apply envLookup_eq_none
    intro p hpm
    rcases List.mem_append.mp hpm with hbase | hdefs
    · have hp2 : p = ("__builtins__", EnvVal.builtinsDict) ∨
          p = ("print", EnvVal.printCapture) := by
        simpa [baseEnv] using hbase
      rcases hp2 with rfl | rfl
      · exact fun he => hfb he.symm
      · exact fun he => hfp he.symm
    · intro he
      exact hmem (he ▸ List.mem_map_of_mem Prod.fst hdefs)
  have hlp := envLookup_print_fresh defs hb hp hnd
  refine ⟨?_, hlp, ?_⟩
  · simp only [evaluate_user_code, evaluateUserCodeS, hsec, hdef, hnf]
    simp [userFunctionsOf_fresh defs hb hp hnd]
  · simp only [evaluate_user_code, evaluateUserCodeS, hsec, hdef, hlp]
    simp [runCasesFrom]

/-- Witness for C8 (amended): a submission defining only myadd, evaluated
with target add, is rejected with the list naming print and myadd; the same
submission evaluated with target print resolves the injected capture and
passes an empty case list. -/
theorem C8_name_mismatch_lists_env_callables_witness :
    (evaluate_user_code myaddExec myaddCode "add" [] =
      (false, wrong_function_name_msg "add" ("print" :: userFunctionsOf myaddDefs)) ∧
    envLookup (buildEnv myaddDefs) "print" = some EnvVal.printCapture ∧
    evaluate_user_code myaddExec myaddCode "print" [] = (true, all_passed_msg 0)) :=
  C8_name_mismatch_lists_env_callables myaddExec myaddCode "add" [] myaddDefs []
    (by decide) rfl (by decide) (by decide) (by decide) (by decide) (by decide)
    (by decide)

/-- Counterexample for C8 as stated: the found-callables list is not
exactly the callables the submission defined — the submission defined only
myadd, yet the message lists print (the injected capture) as well. -/
theorem C8_found_list_not_submission_only_cex :
    evaluate_user_code myaddExec myaddCode "add" [] =
      (false, wrong_function_name_msg "add" ["print", "myadd"]) ∧
    userFunctionsOf (buildEnv myaddDefs) = ["print", "myadd"] ∧
    myaddDefs.map Prod.fst = ["myadd"] ∧
    "print" ∉ myaddDefs.map Prod.fst :=
  ⟨by decide, by decide, by decide, by decide⟩

/-- Claim C9: evaluating twice with identical source text, target name and
test cases yields identical verdicts: the harness verdict is independent of
the sink state at entry, so in particular a second call seeded with
whatever state the first call left behind returns the first call's
verdict. -/
theorem C9_idempotent_no_state_leak (pyExec : String → ExecOutcome)
    (code function_name : String) (test_cases : List (List PyVal × PyVal))
    (s1 s2 : List String) :
    (evaluateUserCodeS pyExec code function_name test_cases s1).1 =
      (evaluateUserCodeS pyExec code function_name test_cases s2).1 ∧
    (evaluateUserCodeS pyExec code function_name test_cases
        (evaluateUserCodeS pyExec code function_name test_cases []).2).1 =
      evaluate_user_code pyExec code function_name test_cases := by
  refine ⟨evaluateUserCodeS_fst_sink_indep pyExec code function_name test_cases s1 s2, ?_⟩
  rw [evaluate_user_code]
  exact evaluateUserCodeS_fst_sink_indep pyExec code function_name test_cases _ []

/-- Claim C10 (amended): for every evaluation that reaches the test loop
and whose test-case list contains a case with expected value None, provided
the callable never returns the always-equal user object on a None-expecting
case (its results there lie in the built-in fragment, where only None
compares equal to None), evaluate_user_code never returns passed = true: a
None return is reclassified as missing-return or print-instead-of-return
before the equality comparison, and every other fragment outcome of that
case also fails.  Without the proviso the claim is false: a submission
returning an object whose user-defined __eq__ accepts None makes such a
case pass (see the counterexample). -/
theorem C10_expected_none_never_passes_in_fragment (pyExec : String → ExecOutcome)
    (code function_name : String) (test_cases : List (List PyVal × PyVal))
    (defs : List (String × EnvVal)) (dp : List String) (func : EnvVal)
    (hsec : (check_code_security code).1 = true)
    (hdef : pyExec code = ExecOutcome.defined defs dp)
    (hlook : envLookup (buildEnv defs) function_name = some func)
    (hobj : ∀ tc ∈ test_cases, tc.2 = PyVal.pnone →
      ∀ v, (EnvVal.call func tc.1).outcome = CallOutcome.returns v →
        v ≠ PyVal.pobjAlwaysEq)
    (h : ∃ tc ∈ test_cases, tc.2 = PyVal.pnone) :
    (evaluate_user_code pyExec code function_name test_cases).1 = false := by
  rw [evaluate_user_code,
    evaluateUserCodeS_run pyExec code function_name test_cases [] dp defs func
      hsec hdef hlook]
  have hsome := runCasesFrom_some_of_expected_none func ([] ++ dp) test_cases hobj h
  cases hv : (runCasesFrom func ([] ++ dp) test_cases).1 with
  | none => rw [hv] at hsome; simp at hsome
  | some v =>
    simp only [hv]
    exact runCasesFrom_fail_verdict_false func ([] ++ dp) test_cases v hv

/-- Witness for C10 (amended): a single case expecting None, with a
callable that returns exactly None, yields passed = false. -/
theorem C10_expected_none_never_passes_in_fragment_witness :
    (evaluate_user_code returnNoneExec returnNoneCode "f"
      [([], PyVal.pnone)]).1 = false :=
  C10_expected_none_never_passes_in_fragment returnNoneExec returnNoneCode "f"
    [([], PyVal.pnone)] returnNoneDefs [] (EnvVal.userCallable returnNoneSem)
    (by decide) rfl rfl
    (by
      intro tc htc hnone v hv
      cases List.mem_singleton.mp htc
      injection hv with h2
      subst h2
      exact fun hh => PyVal.noConfusion hh)
    ⟨([], PyVal.pnone), List.mem_singleton.mpr rfl, rfl⟩

/-- Counterexample for C10 as stated: a submission defining class W with
__eq__ returning True and def f(): return W() passes the security filter,
its callable returns a non-None instance, both is-None checks are skipped,
and result != expected is False at the comparison — evaluate_user_code
returns passed = true although the expected value of the case is None. -/
theorem C10_always_eq_object_passes_cex :
    (check_code_security alwaysEqCode).1 = true ∧
    (EnvVal.call (EnvVal.userCallable alwaysEqSem) []).outcome =
      CallOutcome.returns PyVal.pobjAlwaysEq ∧
    evaluate_user_code alwaysEqExec alwaysEqCode "f" [([], PyVal.pnone)] =
      (true, all_passed_msg 1) :=
  ⟨by decide, rfl, by decide⟩

end Evaluator
